import Mathlib

/-!
Shallow embedding of the work-timesheet persistence core (app.js, class
WorkTimesheet) and the offline cache gateway (sw.js), together with proofs
of the specification claims about them.

JavaScript values that matter to the claims are modelled explicitly:
strings as Lean `String`, JS numbers appearing as ids as `JsValue`
(string / number / NaN, with JS strict equality `===`), the browser
localStorage as an association list from key strings to stored values,
and JSON round-tripping through `Val` (a stored value is either a
serialized snapshot object, the JSON literal null, or malformed text on
which `JSON.parse` throws).
-/

/-- A JavaScript value as it occurs in id positions: a string, a finite
number, or NaN.  `parseInt` of a non-numeric string produces NaN. -/
inductive JsValue where
  | str (s : String)
  | num (n : Int)
  | nan
  deriving Repr, DecidableEq

/-- JS strict equality `===` restricted to the values above: equal strings,
equal numbers; `NaN === x` is false for every `x`, including NaN itself,
and a string never strictly equals a number. -/
def strictEq : JsValue → JsValue → Bool
  | .str a, .str b => a = b
  | .num a, .num b => a = b
  | _, _ => false

/-- A project row, as built by `loadInitialData` (numeric ids 1..4) or by
`addProject` (string id from `generateId`). -/
structure Project where
  id : JsValue
  name : String
  color : String
  deriving Repr, DecidableEq

/-- A timesheet entry, as built by `addEntry`.  The `id` field is `none`
when the stored entry predates id generation (the case `migrateOldData`
repairs); `hours` is the result of `parseFloat` (`none` models NaN). -/
structure Entry where
  id : Option String
  date : String
  projectId : JsValue
  hours : Option ℚ
  createdAt : String
  synced : Bool
  deriving Repr, DecidableEq

/-- The JSON object shape `{projects, entries, lastSaved}` written by
`saveData`; each field is optional because a parsed snapshot may lack it
(the code reads `data.projects || []`). -/
structure SnapshotJson where
  projects : Option (List Project)
  entries : Option (List Entry)
  lastSaved : Option String
  deriving Repr, DecidableEq

/-- A value stored under a localStorage key: a serialized snapshot object,
the JSON text "null", or malformed text (distinguished by a tag) on which
`JSON.parse` throws. -/
inductive Val where
  | snap (j : SnapshotJson)
  | nullLit
  | malformed (tag : Nat)
  deriving Repr, DecidableEq

/-- `JSON.parse` on a stored value: returns the snapshot object or null,
or throws (`Except.error`) on malformed text. -/
def jsonParse : Val → Except Unit (Option SnapshotJson)
  | .snap j => .ok (some j)
  | .nullLit => .ok none
  | .malformed _ => .error ()

/-- localStorage modelled as an association list of key/value pairs. -/
abbrev Store := List (String × Val)

/-- `localStorage.getItem(k)`. -/
def getItem (st : Store) (k : String) : Option Val :=
  (st.find? (fun p => p.1 = k)).map Prod.snd

/-- `localStorage.setItem(k, v)`: replace the binding if the key is
present, otherwise append a new one. -/
def setItem : Store → String → Val → Store
  | [], k, v => [(k, v)]
  | (k0, v0) :: rest, k, v =>
      if k0 = k then (k, v) :: rest else (k0, v0) :: setItem rest k v

/-- `localStorage.removeItem(k)`. -/
def removeItem (st : Store) (k : String) : Store :=
  st.filter (fun p => p.1 ≠ k)

/-- `Object.keys(localStorage)`. -/
def storeKeys (st : Store) : List String := st.map Prod.fst

/-- The primary snapshot key. -/
def kData : String := "workTimesheet_data"

/-- The backup snapshot key. -/
def kBackup : String := "workTimesheet_backup"

/-- The application's storage-key namespace tag. -/
def wtNamespace : String := "workTimesheet_"

theorem getItem_setItem_self (st : Store) (k : String) (v : Val) :
    getItem (setItem st k v) k = some v := by
  induction st with
  | nil => simp [setItem, getItem, List.find?]
  | cons hd tl ih =>
      by_cases h : hd.1 = k
      · simp [setItem, h, getItem, List.find?]
      · simpa [setItem, h, getItem, List.find?] using ih

theorem getItem_setItem_ne (st : Store) (k k2 : String) (v : Val) (h : k2 ≠ k) :
    getItem (setItem st k v) k2 = getItem st k2 := by
  induction st with
  | nil => simp [setItem, getItem, List.find?, Ne.symm h]
  | cons hd tl ih =>
      obtain ⟨a, b⟩ := hd
      by_cases h0 : a = k
      · subst h0
        simp [setItem, getItem, List.find?, Ne.symm h]
      · by_cases h2 : a = k2
        · subst h2
          simp [setItem, h0, getItem, List.find?]
        · simpa [setItem, h0, getItem, List.find?, h2] using ih

theorem getItem_removeItem_self (st : Store) (k : String) :
    getItem (removeItem st k) k = none := by
  induction st with
  | nil => simp [removeItem, getItem]
  | cons hd tl ih =>
      by_cases h : hd.1 = k
      · simp [removeItem, getItem, h] at ih ⊢
      · simp [removeItem, getItem, List.find?, h] at ih ⊢

theorem getItem_removeItem_ne (st : Store) (k k2 : String) (h : k2 ≠ k) :
    getItem (removeItem st k) k2 = getItem st k2 := by
  induction st with
  | nil => simp [removeItem, getItem]
  | cons hd tl ih =>
      obtain ⟨a, b⟩ := hd
      by_cases h0 : a = k
      · subst h0
        simpa [removeItem, getItem, List.find?, Ne.symm h] using ih
      · by_cases h2 : a = k2
        · subst h2
          simp [removeItem, getItem, List.find?, h0]
        · simpa [removeItem, getItem, List.find?, h0, h2] using ih

/-! ## cleanupStorage (app.js lines 70-81)

`cleanupStorage` collects the keys starting with the `workTimesheet_`
namespace tag, and when there are more than 10 of them removes the 5
smallest under JS default lexicographic string sort. -/

/-- The namespaced keys of the store, in store order. -/
def wtKeys (st : Store) : List String :=
  (storeKeys st).filter (fun k => k.startsWith wtNamespace)

/-- `WorkTimesheet.cleanupStorage`: `keys.sort().slice(0, 5)` removed when
more than 10 namespaced keys exist. -/
def cleanupStorage (st : Store) : Store :=
  let keys := wtKeys st
  if keys.length > 10 then
    ((keys.insertionSort (fun a b => a ≤ b)).take 5).foldl removeItem st
  else st

theorem getItem_foldl_removeItem (ks : List String) (st : Store) (k : String) :
    getItem (ks.foldl removeItem st) k = if k ∈ ks then none else getItem st k := by
  induction ks generalizing st with
  | nil => simp
  | cons k0 rest ih =>
      simp only [List.foldl_cons, ih, List.mem_cons]
      by_cases hk : k ∈ rest
      · simp [hk]
      · by_cases h0 : k = k0
        · subst h0
          simp [hk, getItem_removeItem_self]
        · simp [hk, h0, getItem_removeItem_ne st k0 k h0]

/-! ## Saving (app.js lines 38-68, 174-192)

`saveToLocalStorage` wraps the two `setItem` calls in a try/catch whose
handler runs `cleanupStorage`; exceptions are modelled by a store
transformer returning `Store × Except Unit Unit`, with a `jsTry`
combinator giving the try/catch semantics.  The booleans `f1`, `f2` say
whether the primary / backup `setItem` throws (quota exceeded). -/

/-- A statement in the mutable-localStorage model: it transforms the store
and either returns normally or throws. -/
abbrev StoreStmt := Store → Store × Except Unit Unit

/-- JS `try { body } catch (e) { handler }` where the handler returns
normally. -/
def jsTry (body : StoreStmt) (handler : Store → Store) : StoreStmt := fun st =>
  match body st with
  | (st2, .ok a) => (st2, .ok a)
  | (st2, .error _) => (handler st2, .ok ())

/-- Sequencing of two statements: the second runs only if the first
returned normally. -/
def seqStmt (a b : StoreStmt) : StoreStmt := fun st =>
  match a st with
  | (st2, .ok _) => b st2
  | (st2, .error e) => (st2, .error e)

/-- `localStorage.setItem(k, v)` as a statement that throws when the
underlying write fails (`fails = true`), leaving the store unchanged. -/
def setItemOr (fails : Bool) (k : String) (v : Val) : StoreStmt := fun st =>
  if fails then (st, .error ()) else (setItem st k v, .ok ())

/-- The snapshot object `{projects, entries, lastSaved: now}` built by
`saveData`. -/
def mkSnapshot (ps : List Project) (es : List Entry) (now : String) : SnapshotJson :=
  ⟨some ps, some es, some now⟩

/-- `WorkTimesheet.saveToLocalStorage(data)`: write the serialized data to
the primary key then the backup key inside a try/catch that runs
`cleanupStorage` on failure. -/
def saveToLocalStorage (f1 f2 : Bool) (data : SnapshotJson) : StoreStmt :=
  jsTry
    (seqStmt (setItemOr f1 kData (Val.snap data))
             (setItemOr f2 kBackup (Val.snap data)))
    cleanupStorage

/-- `WorkTimesheet.saveData()`: serialize the in-memory collections with
the current time and store them via `saveToLocalStorage`.  The debounced
`deferredSave` it also schedules performs no durable write (it only
refreshes the "last saved" indicator), so it is not part of the store
semantics. -/
def saveData (f1 f2 : Bool) (ps : List Project) (es : List Entry) (now : String) : StoreStmt :=
  saveToLocalStorage f1 f2 (mkSnapshot ps es now)

/-- The constructor constant `this.maxRetries = 3`. -/
def maxRetries : Nat := 3

/-- The notification text of `attemptSave`'s give-up branch. -/
def saveErrorMessage : String := "Ошибка сохранения данных"

/-- One execution of `WorkTimesheet.attemptSave` over the real `saveData`:
on normal return the retry counter resets to 0; on a thrown error either a
backoff timer of `1000 * (rc + 1)` ms is scheduled or, past the maximum,
the error notification is shown.  Returns the store, the new retry
counter, the scheduled delay if any, and the notifications shown. -/
def attemptSaveOnce (f1 f2 : Bool) (ps : List Project) (es : List Entry)
    (now : String) (rc : Nat) (st : Store) : Store × Nat × Option Nat × List String :=
  match saveData f1 f2 ps es now st with
  | (st2, .ok _) => (st2, 0, none, [])
  | (st2, .error _) =>
      if rc < maxRetries then (st2, rc + 1, some (1000 * (rc + 1)), [])
      else (st2, rc, none, [saveErrorMessage])

/-- The complete retry loop of `attemptSave`, abstracted over a failure
oracle: `fails rc` says whether the save attempt made while the retry
counter holds `rc` throws.  (In a run started by `saveWithRetry` the retry
counter at the k-th attempt is exactly k.)  Collects, in order, the
backoff delays scheduled and the notifications shown, and returns the
final retry counter; the in-memory collections `mem` are threaded through
untouched because no branch of `attemptSave` modifies them. -/
def attemptSaveRun (fails : Nat → Bool) (maxR : Nat) (mem : List Project × List Entry)
    (rc : Nat) : List Nat × List String × Nat × (List Project × List Entry) :=
  if fails rc then
    if h : rc < maxR then
      let r := attemptSaveRun fails maxR mem (rc + 1)
      (1000 * (rc + 1) :: r.1, r.2.1, r.2.2.1, r.2.2.2)
    else ([], [saveErrorMessage], rc, mem)
  else ([], [], 0, mem)
termination_by maxR - rc
decreasing_by omega

/-- `WorkTimesheet.saveWithRetry()`: reset the retry counter to 0, then
run `attemptSave`. -/
def saveWithRetry (fails : Nat → Bool) (mem : List Project × List Entry) :
    List Nat × List String × Nat × (List Project × List Entry) :=
  attemptSaveRun fails maxRetries mem 0

/-! ## Loading (app.js lines 83-149)

`loadData` reads the primary key, falls back to the backup key when the
primary is absent (promoting the backup into the primary key), and routes
any `JSON.parse` exception to `loadFromBackup`; when everything fails it
seeds the built-in defaults. -/

/-- The four seeded default projects of `loadInitialData`. -/
def initialProjects : List Project :=
  [ ⟨.num 1, "Разработка", "#3b82f6"⟩,
    ⟨.num 2, "Тестирование", "#ef4444"⟩,
    ⟨.num 3, "Дизайн", "#10b981"⟩,
    ⟨.num 4, "Встречи", "#f59e0b"⟩ ]

/-- `WorkTimesheet.migrateOldData`: assign a generated id to every entry
lacking one.  `gen i` is the value returned by the i-th `generateId()`
call of the pass. -/
def migrateOldData (gen : Nat → String) : Nat → List Entry → List Entry
  | _, [] => []
  | i, e :: rest =>
      match e.id with
      | none => { e with id := some (gen i) } :: migrateOldData gen (i + 1) rest
      | some _ => e :: migrateOldData gen i rest

/-- `WorkTimesheet.loadFromBackup`: read and parse the backup key; any
exception or an absent backup yields the seeded defaults. -/
def loadFromBackup (st : Store) : List Project × List Entry :=
  match getItem st kBackup with
  | some bv =>
      match jsonParse bv with
      | .ok (some j) => (j.projects.getD [], j.entries.getD [])
      | .ok none => (initialProjects, [])
      | .error _ => (initialProjects, [])
  | none => (initialProjects, [])

/-- The try-block of `WorkTimesheet.loadData`: read the primary key, or
when it is absent read the backup key and (after it parses) rewrite it
into the primary key.  A parse exception escapes as `Except.error`; a
normal return carries the parsed data (possibly null) and the possibly
updated store. -/
def loadDataTry (st : Store) : Except Unit (Option SnapshotJson × Store) :=
  match getItem st kData with
  | some mv =>
      match jsonParse mv with
      | .ok d => .ok (d, st)
      | .error e => .error e
  | none =>
      match getItem st kBackup with
      | some bv =>
          match jsonParse bv with
          | .ok d => .ok (d, setItem st kData bv)
          | .error e => .error e
      | none => .ok (none, st)

/-- `WorkTimesheet.loadData`: run the try-block; route an exception to
`loadFromBackup`; on truthy parsed data adopt its collections and migrate,
otherwise seed the defaults.  The last component lists the user-visible
notifications shown while loading (the code only logs to the console, so
it is empty on every path). -/
def loadData (gen : Nat → String) (st : Store) :
    List Project × List Entry × Store × List String :=
  match loadDataTry st with
  | .error _ =>
      match loadFromBackup st with
      | (ps, es) => (ps, es, st, [])
  | .ok (some j, st2) =>
      (j.projects.getD [], migrateOldData gen 0 (j.entries.getD []), st2, [])
  | .ok (none, st2) => (initialProjects, [], st2, [])

/-! ## Id generation and mutation operations (app.js lines 152-172, 234-236, 401-418)

`generateId` concatenates `Date.now().toString(36)` with random base-36
digits; `addEntry` runs the submitted project id through `parseInt`;
`renderCalendar` looks entries' projects up with strict equality. -/

/-- The base-36 digit characters used by `Number.prototype.toString(36)`:
0-9 then a-z. -/
def digitChar36 (d : Nat) : Char :=
  if d < 10 then Char.ofNat (48 + d) else Char.ofNat (87 + d)

/-- Fuelled base-36 conversion, most significant digit first; the fuel is
an upper bound on the digit count that keeps the recursion structural. -/
def natToBase36Aux : Nat → Nat → List Char
  | 0, _ => []
  | fuel + 1, n =>
      if n < 36 then [digitChar36 n]
      else natToBase36Aux fuel (n / 36) ++ [digitChar36 (n % 36)]

/-- `n.toString(36)` for a natural number `n`. -/
def natToBase36 (n : Nat) : List Char := natToBase36Aux (n + 1) n

/-- `WorkTimesheet.generateId`: `Date.now().toString(36)` (here `now`)
concatenated with `Math.random().toString(36).substr(2)` (here `rand`). -/
def generateId (now : Nat) (rand : String) : String :=
  String.mk (natToBase36 now) ++ rand

/-- Decimal ASCII digit test. -/
def isAsciiDigit (c : Char) : Bool :=
  decide (Char.ofNat 48 ≤ c) && decide (c ≤ Char.ofNat 57)

/-- Numeric value of a list of decimal digit characters. -/
def digitsVal (ds : List Char) : Nat :=
  ds.foldl (fun a c => 10 * a + (c.toNat - 48)) 0

/-- The leading run of decimal digits, or `none` when the first character
is not a digit. -/
def parseLeadingNat (cs : List Char) : Option Nat :=
  let ds := cs.takeWhile isAsciiDigit
  if ds.isEmpty then none else some (digitsVal ds)

/-- JS `parseInt` restricted to radix-10 inputs: skip leading spaces, an
optional sign, then read the leading decimal digits; `none` models NaN. -/
def parseIntJs (s : String) : Option Int :=
  match s.data.dropWhile (fun c => c == Char.ofNat 32) with
  | [] => none
  | c :: rest =>
      if c = Char.ofNat 45 then (parseLeadingNat rest).map (fun n => -(n : Int))
      else if c = Char.ofNat 43 then (parseLeadingNat rest).map (fun n => (n : Int))
      else (parseLeadingNat (c :: rest)).map (fun n => (n : Int))

/-- Value of a fraction-digit list, as in `parseFloat`. -/
def fracVal (ds : List Char) : ℚ :=
  (digitsVal ds : ℚ) / ((10 : ℚ) ^ ds.length)

/-- Unsigned part of JS `parseFloat`: leading digits, optionally a dot and
further digits; `none` (NaN) when no digit appears at all. -/
def parseFloatCore (cs : List Char) : Option ℚ :=
  let intDs := cs.takeWhile isAsciiDigit
  match cs.dropWhile isAsciiDigit with
  | c :: rest2 =>
      if c = Char.ofNat 46 then
        let fracDs := rest2.takeWhile isAsciiDigit
        if intDs.isEmpty && fracDs.isEmpty then none
        else some ((digitsVal intDs : ℚ) + fracVal fracDs)
      else if intDs.isEmpty then none else some ((digitsVal intDs : ℚ))
  | [] => if intDs.isEmpty then none else some ((digitsVal intDs : ℚ))

/-- JS `parseFloat` on plain decimal inputs; `none` models NaN. -/
def parseFloatJs (s : String) : Option ℚ :=
  match s.data.dropWhile (fun c => c == Char.ofNat 32) with
  | [] => none
  | c :: rest =>
      if c = Char.ofNat 45 then (parseFloatCore rest).map (fun q => -q)
      else if c = Char.ofNat 43 then parseFloatCore rest
      else parseFloatCore (c :: rest)

/-- The JS number produced by a parse: a finite number or NaN. -/
def jsNumOfParse : Option Int → JsValue
  | some n => .num n
  | none => .nan

/-- The entry object built by `WorkTimesheet.addEntry(date, projectId,
hours)`: the freshly generated id, `parseInt(projectId)`,
`parseFloat(hours)`, the creation timestamp and the online flag. -/
def addEntry (entryId : String) (date : String) (projectIdArg : String)
    (hoursArg : String) (nowIso : String) (online : Bool) : Entry :=
  { id := some entryId
    date := date
    projectId := jsNumOfParse (parseIntJs projectIdArg)
    hours := parseFloatJs hoursArg
    createdAt := nowIso
    synced := online }

/-- `WorkTimesheet.addProject`: push a project whose id is the string
returned by `generateId`. -/
def addProject (now : Nat) (rand : String) (name color : String)
    (projects : List Project) : List Project :=
  projects ++ [⟨.str (generateId now rand), name, color⟩]

/-- The project lookup of `renderCalendar` (and `showDayModal` /
`updateStats`): `this.projects.find(p => p.id === entry.projectId)`. -/
def findProject (projects : List Project) (pid : JsValue) : Option Project :=
  projects.find? (fun p => strictEq p.id pid)

/-! ## Offline cache gateway (sw.js)

The fetch listener: non-GET and cross-origin requests pass through
untouched (the listener returns without calling `respondWith`); otherwise
the cache is consulted first, then the network, a status-200 response
being cloned into the static cache when the full request URL matches
`/\.(html|css|js|json)$/`; a network failure yields the cached
`./index.html` for document navigations and resolves with `undefined`
otherwise. -/

/-- A network response: its HTTP status, body, and whether this object is
a clone produced by `Response.clone()`. -/
structure SWResponse where
  status : Nat
  body : String
  isClone : Bool
  deriving Repr, DecidableEq

/-- `Response.clone()`. -/
def cloneResponse (r : SWResponse) : SWResponse := { r with isClone := true }

/-- The parts of `event.request` the listener reads: the absolute URL
split as origin, path and query search string, plus
`event.request.destination`. -/
structure SWRequest where
  origin : String
  path : String
  search : String
  destination : String
  deriving Repr, DecidableEq

/-- `event.request.url`, the absolute URL string the regex is applied
to. -/
def requestUrl (r : SWRequest) : String := r.origin ++ r.path ++ r.search

/-- String suffix test, character-wise. -/
def strEndsWith (s suf : String) : Bool := suf.data.isSuffixOf s.data

/-- The regex `/\.(html|css|js|json)$/` of the fetch listener: the URL
string ends with one of the four extensions. -/
def staticExtMatch (url : String) : Bool :=
  strEndsWith url ".html" || strEndsWith url ".css"
    || strEndsWith url ".js" || strEndsWith url ".json"

/-- The URL whose cached response is served as navigation fallback,
`caches.match('./index.html')`. -/
def fallbackDocUrl : String := "./index.html"

/-- The fetch listener of sw.js.  `cache` is the current cache contents
keyed by URL, `net` the outcome of `fetch(event.request)`.  The result is
`none` when the listener returns without `respondWith` (non-GET or
cross-origin); otherwise `some (resp, puts)` where `resp` is the value the
`respondWith` promise resolves to (`none` models resolving with
`undefined`) and `puts` the writes performed on the static cache. -/
def handleFetch (cache : String → Option SWResponse) (net : Except Unit SWResponse)
    (method : String) (selfOrigin : String) (req : SWRequest) :
    Option (Option SWResponse × List (String × SWResponse)) :=
  if method ≠ "GET" then none
  else if req.origin ≠ selfOrigin then none
  else some (
    match cache (requestUrl req) with
    | some r => (some r, [])
    | none =>
        match net with
        | .ok fr =>
            if fr.status = 200 then
              if staticExtMatch (requestUrl req) then
                (some fr, [(requestUrl req, cloneResponse fr)])
              else (some fr, [])
            else (some fr, [])
        | .error _ =>
            if req.destination = "document" then (cache fallbackDocUrl, [])
            else (none, []))

/-! ## Claim theorems -/

/-- C1: after a successful `save()` (both underlying writes succeed), the
primary key `workTimesheet_data` and the backup key `workTimesheet_backup`
hold identical JSON-decodable snapshots `{projects, entries, lastSaved}`
whose entries and projects match the in-memory collections, the primary
being written before the backup within the same call (the resulting store
is the backup write applied after the primary write). -/
theorem saveData_redundant_write (ps : List Project) (es : List Entry)
    (now : String) (st : Store) :
    saveData false false ps es now st =
      (setItem (setItem st kData (Val.snap (mkSnapshot ps es now))) kBackup
         (Val.snap (mkSnapshot ps es now)), Except.ok ()) ∧
    ∃ j : SnapshotJson,
      getItem (saveData false false ps es now st).1 kData = some (Val.snap j) ∧
      getItem (saveData false false ps es now st).1 kBackup = some (Val.snap j) ∧
      jsonParse (Val.snap j) = Except.ok (some j) ∧
      j.projects = some ps ∧ j.entries = some es ∧ j.lastSaved = some now := by
  have hne : kData ≠ kBackup := by decide
  have h1 : saveData false false ps es now st =
      (setItem (setItem st kData (Val.snap (mkSnapshot ps es now))) kBackup
         (Val.snap (mkSnapshot ps es now)), Except.ok ()) := by
    simp [saveData, saveToLocalStorage, jsTry, seqStmt, setItemOr]
  refine ⟨h1, mkSnapshot ps es now, ?_, ?_, rfl, rfl, rfl, rfl⟩
  · rw [h1]
    simpa [getItem_setItem_ne _ _ _ _ hne] using
      getItem_setItem_self st kData (Val.snap (mkSnapshot ps es now))
  · rw [h1]
    exact getItem_setItem_self _ kBackup (Val.snap (mkSnapshot ps es now))

/-- C10: `saveToLocalStorage` catches every failure of the underlying
storage writes, so it and `saveData` always return normally; consequently
when the only failure source is a storage write, `attemptSave` always
takes its success branch: the retry counter is reset to 0, no backoff
timer is scheduled and no notification is shown. -/
theorem saveToLocalStorage_never_throws (f1 f2 : Bool) (ps : List Project)
    (es : List Entry) (now : String) (st : Store) (rc : Nat) :
    (saveToLocalStorage f1 f2 (mkSnapshot ps es now) st).2 = Except.ok () ∧
    (saveData f1 f2 ps es now st).2 = Except.ok () ∧
    attemptSaveOnce f1 f2 ps es now rc st = ((saveData f1 f2 ps es now st).1, 0, none, []) := by
  cases f1 <;> cases f2 <;>
    simp [saveData, saveToLocalStorage, jsTry, seqStmt, setItemOr, attemptSaveOnce]

/-- C2: when the primary key is absent and the backup key holds a valid
snapshot, `load()` adopts the backup's projects and (migrated) entries and
rewrites the backup value into the primary key, so that afterwards the
primary key matches the backup key. -/
theorem loadData_backup_promotion (gen : Nat → String) (st : Store)
    (j : SnapshotJson)
    (hmain : getItem st kData = none)
    (hbackup : getItem st kBackup = some (Val.snap j)) :
    loadData gen st =
      (j.projects.getD [], migrateOldData gen 0 (j.entries.getD []),
        setItem st kData (Val.snap j), []) ∧
    getItem (loadData gen st).2.2.1 kData = some (Val.snap j) ∧
    getItem (loadData gen st).2.2.1 kData = getItem st kBackup := by
  have h1 : loadDataTry st = .ok (some j, setItem st kData (Val.snap j)) := by
    simp [loadDataTry, hmain, hbackup, jsonParse]
  refine ⟨by simp [loadData, h1], ?_, ?_⟩
  · simp [loadData, h1, getItem_setItem_self]
  · simp [loadData, h1, getItem_setItem_self, hbackup]

/-- C2 witness: a concrete store with the primary key absent and a
snapshot under the backup key. -/
theorem loadData_backup_promotion_witness :
    getItem ((loadData (fun _ => "x")
        [(kBackup, Val.snap (mkSnapshot initialProjects [] "t"))]).2.2.1) kData
      = some (Val.snap (mkSnapshot initialProjects [] "t")) :=
  (loadData_backup_promotion (fun _ => "x")
    [(kBackup, Val.snap (mkSnapshot initialProjects [] "t"))]
    (mkSnapshot initialProjects [] "t") (by decide) (by decide)).2.1

/-- C3: when the primary key holds malformed JSON, the parse exception is
thrown inside `loadData`'s try block (`loadDataTry` errors) but `load()`
itself returns normally: it falls back to the backup key, and when the
backup is absent or invalid it seeds the built-in defaults (the fixed 4
projects and an empty entry list); no user-visible notification is
produced on any load path. -/
theorem loadData_corrupt_primary (gen : Nat → String) (st : Store) (t : Nat)
    (hmain : getItem st kData = some (Val.malformed t)) :
    loadDataTry st = Except.error () ∧
    (∀ j, getItem st kBackup = some (Val.snap j) →
        loadData gen st = (j.projects.getD [], j.entries.getD [], st, [])) ∧
    ((getItem st kBackup = none ∨ (∃ u, getItem st kBackup = some (Val.malformed u)) ∨
        getItem st kBackup = some Val.nullLit) →
      loadData gen st = (initialProjects, [], st, [])) ∧
    (loadData gen st).2.2.2 = [] := by
  have h1 : loadDataTry st = .error () := by
    simp [loadDataTry, hmain, jsonParse]
  refine ⟨h1, ?_, ?_, ?_⟩
  · intro j hb
    simp [loadData, h1, loadFromBackup, hb, jsonParse]
  · rintro (hb | ⟨u, hb⟩ | hb) <;> simp [loadData, h1, loadFromBackup, hb, jsonParse]
  · simp [loadData, h1]

/-- C3 witness: primary malformed and backup absent yields the seeded
defaults. -/
theorem loadData_corrupt_primary_witness :
    loadData (fun _ => "x") [(kData, Val.malformed 0)]
      = (initialProjects, [], [(kData, Val.malformed 0)], []) :=
  (loadData_corrupt_primary (fun _ => "x") [(kData, Val.malformed 0)] 0
    (by decide)).2.2.1 (Or.inl (by decide))

/-- C4: when the first two save attempts of a `saveWithRetry()` run throw
and the third succeeds, exactly two backoff delays are scheduled before
the third attempt — 1000 ms then 2000 ms, each equal to 1000 ms times the
just-incremented retry counter — no notification is shown, and the retry
counter ends reset to 0. -/
theorem saveWithRetry_two_failures_then_success (fails : Nat → Bool)
    (mem : List Project × List Entry)
    (h0 : fails 0 = true) (h1 : fails 1 = true) (h2 : fails 2 = false) :
    saveWithRetry fails mem = ([1000, 2000], [], 0, mem) := by
  unfold saveWithRetry maxRetries
  rw [attemptSaveRun, if_pos h0, dif_pos (by omega : 0 < 3)]
  rw [attemptSaveRun, if_pos h1, dif_pos (by omega : 1 < 3)]
  rw [attemptSaveRun, if_neg (by simp [h2])]

/-- C4 witness: a concrete oracle failing on exactly the first two
attempts. -/
theorem saveWithRetry_two_failures_then_success_witness :
    saveWithRetry (fun i => decide (i < 2)) ([], []) = ([1000, 2000], [], 0, ([], [])) :=
  saveWithRetry_two_failures_then_success (fun i => decide (i < 2)) ([], [])
    (by decide) (by decide) (by decide)

/-- C5: when every save attempt up to the maximum retry count (3) throws,
the run schedules the three backoff delays 1000/2000/3000 ms, the final
attempt shows the user-visible error notification and schedules no further
attempt, and the in-memory collections are left untouched (not rolled
back). -/
theorem saveWithRetry_gives_up (fails : Nat → Bool)
    (mem : List Project × List Entry)
    (h : ∀ i, i ≤ maxRetries → fails i = true) :
    saveWithRetry fails mem = ([1000, 2000, 3000], [saveErrorMessage], maxRetries, mem) := by
  unfold saveWithRetry maxRetries
  rw [attemptSaveRun, if_pos (h 0 (by decide)), dif_pos (by omega : 0 < 3)]
  rw [attemptSaveRun, if_pos (h 1 (by decide)), dif_pos (by omega : 1 < 3)]
  rw [attemptSaveRun, if_pos (h 2 (by decide)), dif_pos (by omega : 2 < 3)]
  rw [attemptSaveRun, if_pos (h 3 (by decide)), dif_neg (by omega : ¬ 3 < 3)]

/-- C5 witness: the always-failing oracle. -/
theorem saveWithRetry_gives_up_witness :
    saveWithRetry (fun _ => true) ([], [])
      = ([1000, 2000, 3000], [saveErrorMessage], maxRetries, ([], [])) :=
  saveWithRetry_gives_up (fun _ => true) ([], []) (fun _ _ => rfl)

/-- C6: cleanup (run when a storage write fails) considers exactly the
keys with the `workTimesheet_` prefix; with 10 or fewer such keys it
deletes nothing, and with more than 10 it deletes exactly a 5-element set
of those keys each of which is lexicographically at most every prefixed
key it keeps. -/
theorem cleanupStorage_eviction (st : Store) (hnd : (storeKeys st).Nodup) :
    ((wtKeys st).length ≤ 10 → cleanupStorage st = st) ∧
    (10 < (wtKeys st).length →
      ∃ S : List String,
        S.length = 5 ∧ S.Nodup ∧
        (∀ a ∈ S, a ∈ wtKeys st) ∧
        (∀ a ∈ S, ∀ b ∈ wtKeys st, b ∉ S → a ≤ b) ∧
        (∀ k, getItem (cleanupStorage st) k = if k ∈ S then none else getItem st k)) := by
  constructor
  · intro hle
    simp only [cleanupStorage]
    rw [if_neg (by omega)]
  · intro hgt
    have heq : cleanupStorage st =
        (((wtKeys st).insertionSort (fun a b => a ≤ b)).take 5).foldl removeItem st := by
      simp only [cleanupStorage]
      rw [if_pos (by omega)]
    set sorted := (wtKeys st).insertionSort (fun a b => a ≤ b) with hs
    have hperm : List.Perm sorted (wtKeys st) := List.perm_insertionSort _ _
    have hsorted : sorted.Sorted (fun a b => a ≤ b) := List.sorted_insertionSort _ _
    have hkeysnd : (wtKeys st).Nodup := List.Nodup.filter _ hnd
    have hsortednd : sorted.Nodup := hperm.nodup_iff.mpr hkeysnd
    refine ⟨sorted.take 5, ?_, ?_, ?_, ?_, ?_⟩
    · rw [List.length_take, hperm.length_eq]
      omega
    · exact (List.take_sublist 5 sorted).nodup hsortednd
    · intro a ha
      exact hperm.mem_iff.mp (List.mem_of_mem_take ha)
    · intro a ha b hb hbn
      have hbs : b ∈ sorted := hperm.mem_iff.mpr hb
      have hbd : b ∈ sorted.drop 5 := by
        have hsplit : b ∈ sorted.take 5 ++ sorted.drop 5 := by
          rw [List.take_append_drop]
          exact hbs
        rcases List.mem_append.mp hsplit with h | h
        · exact absurd h hbn
        · exact h
      exact hsorted.rel_of_mem_take_of_mem_drop ha hbd
    · intro k
      rw [heq, getItem_foldl_removeItem]

/-- A concrete store with 12 namespaced keys, exercising the eviction
branch of `cleanupStorage`. -/
def evictionDemoStore : Store :=
  [ ("workTimesheet_data", Val.snap (mkSnapshot [] [] "t")),
    ("workTimesheet_backup", Val.snap (mkSnapshot [] [] "t")),
    ("workTimesheet_a", Val.malformed 1), ("workTimesheet_b", Val.malformed 2),
    ("workTimesheet_c", Val.malformed 3), ("workTimesheet_d", Val.malformed 4),
    ("workTimesheet_e", Val.malformed 5), ("workTimesheet_f", Val.malformed 6),
    ("workTimesheet_g", Val.malformed 7), ("workTimesheet_h", Val.malformed 8),
    ("workTimesheet_i", Val.malformed 9), ("workTimesheet_j", Val.malformed 10) ]

/-- C6 witness: the eviction characterization applied to the concrete
12-key store. -/
theorem cleanupStorage_eviction_witness :
    ((wtKeys evictionDemoStore).length ≤ 10 →
        cleanupStorage evictionDemoStore = evictionDemoStore) ∧
    (10 < (wtKeys evictionDemoStore).length →
      ∃ S : List String,
        S.length = 5 ∧ S.Nodup ∧
        (∀ a ∈ S, a ∈ wtKeys evictionDemoStore) ∧
        (∀ a ∈ S, ∀ b ∈ wtKeys evictionDemoStore, b ∉ S → a ≤ b) ∧
        (∀ k, getItem (cleanupStorage evictionDemoStore) k
            = if k ∈ S then none else getItem evictionDemoStore k)) :=
  cleanupStorage_eviction evictionDemoStore (by decide)

/-- C7 counterexample: for the request of `/app.js?v=1` — whose URL path
ends in `.js` but whose full URL does not because of the query string — a
status-200 network response is NOT written into the cache, refuting the
claim that cache population is decided by the URL path alone. -/
theorem fetch_cache_population_counterexample :
    strEndsWith "/app.js" ".js" = true ∧
    handleFetch (fun _ => none) (Except.ok ⟨200, "body", false⟩) "GET" "https://app"
        ⟨"https://app", "/app.js", "?v=1", "script"⟩
      = some (some ⟨200, "body", false⟩, []) := by
  constructor
  · decide
  · decide

/-- C7 (amended): on a cache miss for a same-origin GET, a status-200
network response is stored into the static cache exactly when the full
request URL string (path plus query) ends in `.html`, `.css`, `.js` or
`.json`, the stored value being a clone; the original, uncloned response
is returned to the caller in both cases. -/
theorem fetch_cache_population (cache : String → Option SWResponse)
    (so : String) (req : SWRequest) (fr : SWResponse)
    (horigin : req.origin = so)
    (hmiss : cache (requestUrl req) = none)
    (hstatus : fr.status = 200) :
    ((strEndsWith (requestUrl req) ".html" || strEndsWith (requestUrl req) ".css"
        || strEndsWith (requestUrl req) ".js" || strEndsWith (requestUrl req) ".json") = true →
      handleFetch cache (Except.ok fr) "GET" so req
        = some (some fr, [(requestUrl req, cloneResponse fr)])) ∧
    ((strEndsWith (requestUrl req) ".html" || strEndsWith (requestUrl req) ".css"
        || strEndsWith (requestUrl req) ".js" || strEndsWith (requestUrl req) ".json") = false →
      handleFetch cache (Except.ok fr) "GET" so req = some (some fr, [])) := by
  constructor <;> intro hext <;>
    simp [handleFetch, horigin, hmiss, hstatus, staticExtMatch, hext]

/-- C7 witness: `/app.js` (no query) is cached and `/logo.png` is not. -/
theorem fetch_cache_population_witness :
    handleFetch (fun _ => none) (Except.ok ⟨200, "body", false⟩) "GET" "https://app"
        ⟨"https://app", "/app.js", "", "script"⟩
      = some (some ⟨200, "body", false⟩,
          [("https://app" ++ "/app.js" ++ "", cloneResponse ⟨200, "body", false⟩)]) ∧
    handleFetch (fun _ => none) (Except.ok ⟨200, "body", false⟩) "GET" "https://app"
        ⟨"https://app", "/logo.png", "", "image"⟩
      = some (some ⟨200, "body", false⟩, []) :=
  ⟨(fetch_cache_population (fun _ => none) "https://app"
      ⟨"https://app", "/app.js", "", "script"⟩ ⟨200, "body", false⟩
      rfl rfl rfl).1 (by decide),
   (fetch_cache_population (fun _ => none) "https://app"
      ⟨"https://app", "/logo.png", "", "image"⟩ ⟨200, "body", false⟩
      rfl rfl rfl).2 (by decide)⟩

/-- C8: for a same-origin GET missing from the cache whose network fetch
fails, a request with destination `document` resolves to the cached
offline fallback document `./index.html` (part of the install-time
manifest); for every other destination the failure is swallowed — the
listener resolves with `undefined` instead of propagating an error. -/
theorem fetch_navigation_fallback (cache : String → Option SWResponse)
    (so : String) (req : SWRequest) (fb : SWResponse)
    (horigin : req.origin = so)
    (hmiss : cache (requestUrl req) = none)
    (hfb : cache fallbackDocUrl = some fb) :
    (req.destination = "document" →
      handleFetch cache (Except.error ()) "GET" so req = some (some fb, [])) ∧
    (req.destination ≠ "document" →
      handleFetch cache (Except.error ()) "GET" so req = some (none, [])) := by
  constructor <;> intro hdest <;>
    simp [handleFetch, horigin, hmiss, hdest, hfb]

/-- C8 witness: a concrete cache holding only the fallback document, with
a navigation request and an image request both failing on the network. -/
theorem fetch_navigation_fallback_witness :
    handleFetch (fun u => if u = fallbackDocUrl then some ⟨200, "home", false⟩ else none)
        (Except.error ()) "GET" "https://app" ⟨"https://app", "/page", "", "document"⟩
      = some (some ⟨200, "home", false⟩, []) ∧
    handleFetch (fun u => if u = fallbackDocUrl then some ⟨200, "home", false⟩ else none)
        (Except.error ()) "GET" "https://app" ⟨"https://app", "/logo.png", "", "image"⟩
      = some (none, []) :=
  ⟨(fetch_navigation_fallback
      (fun u => if u = fallbackDocUrl then some ⟨200, "home", false⟩ else none)
      "https://app" ⟨"https://app", "/page", "", "document"⟩ ⟨200, "home", false⟩
      rfl (by decide) (by decide)).1 rfl,
   (fetch_navigation_fallback
      (fun u => if u = fallbackDocUrl then some ⟨200, "home", false⟩ else none)
      "https://app" ⟨"https://app", "/logo.png", "", "image"⟩ ⟨200, "home", false⟩
      rfl (by decide) (by decide)).2 (by decide)⟩

/-! ## Claim C9: generated project ids versus `parseInt` entry ids -/

theorem digitChar36_letter (d : Nat) (h10 : 10 ≤ d) (h36 : d < 36) :
    isAsciiDigit (digitChar36 d) = false ∧ digitChar36 d ≠ Char.ofNat 32 ∧
    digitChar36 d ≠ Char.ofNat 45 ∧ digitChar36 d ≠ Char.ofNat 43 := by
  interval_cases d <;> exact ⟨by decide, by decide, by decide, by decide⟩

theorem natToBase36Aux_head :
    ∀ k fuel n : Nat, n < fuel → n < 36 ^ (k + 1) → 10 * 36 ^ k ≤ n →
      ∃ t, natToBase36Aux fuel n = digitChar36 (n / 36 ^ k) :: t := by
  intro k
  induction k with
  | zero =>
      intro fuel n hf h36 h10
      match fuel with
      | 0 => omega
      | fuel + 1 =>
          simp only [natToBase36Aux]
          rw [if_pos (by simpa using h36)]
          exact ⟨[], by simp⟩
  | succ k ih =>
      intro fuel n hf h36 h10
      match fuel with
      | 0 => omega
      | fuel + 1 =>
          have hpow : (36 : Nat) ≤ 36 ^ (k + 1) :=
            Nat.le_self_pow (by omega) 36
          have h360 : 36 ≤ n := by
            have := Nat.mul_le_mul_left 10 hpow
            omega
          simp only [natToBase36Aux]
          rw [if_neg (by omega)]
          have hfuel : n / 36 < fuel := by
            have h0 : 0 < n := by omega
            have := Nat.div_lt_self h0 (by norm_num : 1 < 36)
            omega
          have hlt : n / 36 < 36 ^ (k + 1) := by
            rw [Nat.div_lt_iff_lt_mul (by norm_num : 0 < 36)]
            calc n < 36 ^ (k + 1 + 1) := h36
              _ = 36 ^ (k + 1) * 36 := by ring
          have hge : 10 * 36 ^ k ≤ n / 36 := by
            rw [Nat.le_div_iff_mul_le (by norm_num : 0 < 36)]
            calc 10 * 36 ^ k * 36 = 10 * 36 ^ (k + 1) := by ring
              _ ≤ n := h10
          obtain ⟨t, ht⟩ := ih fuel (n / 36) hfuel hlt hge
          refine ⟨t ++ [digitChar36 (n % 36)], ?_⟩
          rw [ht]
          have hdiv : n / 36 / 36 ^ k = n / 36 ^ (k + 1) := by
            rw [Nat.div_div_eq_div_mul]
            congr 1
            ring
          rw [hdiv]
          simp

theorem generateId_data (now : Nat) (rand : String)
    (hlo : 10 * 36 ^ 7 ≤ now) (hhi : now < 36 ^ 8) :
    ∃ t, (generateId now rand).data = digitChar36 (now / 36 ^ 7) :: t ∧
      10 ≤ now / 36 ^ 7 ∧ now / 36 ^ 7 < 36 := by
  obtain ⟨t, ht⟩ := natToBase36Aux_head 7 (now + 1) now (by omega) hhi hlo
  refine ⟨t ++ rand.data, ?_, ?_, ?_⟩
  · show (String.mk (natToBase36 now) ++ rand).data = _
    rw [String.data_append]
    simp [natToBase36, ht]
  · exact (Nat.le_div_iff_mul_le (by positivity)).mpr hlo
  · rw [Nat.div_lt_iff_lt_mul (by positivity)]
    calc now < 36 ^ 8 := hhi
      _ = 36 ^ 7 * 36 := by ring

theorem parseIntJs_of_head (s : String) (c : Char) (cs : List Char)
    (hdata : s.data = c :: cs)
    (hd : isAsciiDigit c = false) (hsp : c ≠ Char.ofNat 32)
    (hm : c ≠ Char.ofNat 45) (hp : c ≠ Char.ofNat 43) :
    parseIntJs s = none := by
  simp only [parseIntJs, hdata]
  rw [List.dropWhile_cons]
  simp only [beq_iff_eq, hsp, if_false]
  simp [hm, hp, parseLeadingNat, List.takeWhile_cons, hd]

theorem strictEq_nan (x : JsValue) : strictEq x JsValue.nan = false := by
  cases x <;> rfl

/-- C9: a project created by `addProject` carries the non-numeric string
id produced by `generateId` — `Date.now().toString(36)` starts with a
base-36 letter for any timestamp in the letter-leading range — so
`parseInt` of that id is NaN; an entry created for such a project
therefore stores `projectId = NaN`, and since NaN is strictly equal to
nothing, the `projects.find(p => p.id === entry.projectId)` lookup of the
renderer fails for every project list, so the entry is never rendered
against its project. -/
theorem addProject_entry_lookup_fails (now : Nat) (rand : String)
    (hlo : 10 * 36 ^ 7 ≤ now) (hhi : now < 36 ^ 8)
    (eid date hoursArg nowIso : String) (online : Bool) :
    parseIntJs (generateId now rand) = none ∧
    (addEntry eid date (generateId now rand) hoursArg nowIso online).projectId
      = JsValue.nan ∧
    (∀ ps : List Project,
      findProject ps
        (addEntry eid date (generateId now rand) hoursArg nowIso online).projectId
          = none) ∧
    (∀ name color : String, ∀ ps0 : List Project,
      Project.mk (JsValue.str (generateId now rand)) name color
        ∈ addProject now rand name color ps0) := by
  obtain ⟨t, ht, h10, h36⟩ := generateId_data now rand hlo hhi
  obtain ⟨hdig, hsp, hm, hp⟩ := digitChar36_letter _ h10 h36
  have hparse : parseIntJs (generateId now rand) = none :=
    parseIntJs_of_head _ _ _ ht hdig hsp hm hp
  refine ⟨hparse, by simp [addEntry, hparse, jsNumOfParse], ?_, ?_⟩
  · intro ps
    simp only [addEntry, hparse, jsNumOfParse, findProject]
    rw [List.find?_eq_none]
    intro p _
    simp [strictEq_nan]
  · intro name color ps0
    simp [addProject]

/-- C9 witness: a concrete contemporary timestamp (its base-36 encoding
starts with a letter). -/
theorem addProject_entry_lookup_fails_witness :
    parseIntJs (generateId 1000000000000 "abc") = none ∧
    (addEntry "e1" "2025-01-01" (generateId 1000000000000 "abc") "8" "t" true).projectId
      = JsValue.nan ∧
    (∀ ps : List Project,
      findProject ps
        (addEntry "e1" "2025-01-01" (generateId 1000000000000 "abc") "8" "t" true).projectId
          = none) ∧
    (∀ name color : String, ∀ ps0 : List Project,
      Project.mk (JsValue.str (generateId 1000000000000 "abc")) name color
        ∈ addProject 1000000000000 "abc" name color ps0) :=
  addProject_entry_lookup_fails 1000000000000 "abc" (by norm_num) (by norm_num)
    "e1" "2025-01-01" "8" "t" true
